import Mathlib

/-!
Shallow embedding of the UDP log-collector (Go sources: the worker pool,
the datagram receiver loop, and the `processData` record conversion).

Modelling conventions:
- Go machine integers are modelled as `Int`/`Nat` (all values involved are
  tiny, no overflow is reachable in the claims); Go `float64` fields and
  `strconv.ParseFloat` results are modelled as exact rationals `ℚ`
  (decimal literals of the wire format are represented exactly).
- A Go channel `chan func()` of capacity `c` is modelled as a `List` of
  tasks plus the capacity and a `closed` flag.  A send on a closed
  channel panics in Go even inside a `select` with a `default` branch;
  this is modelled by the `SubmitOutcome.panicked` result.
- A Go `func()` task is observed by its execution outcome: normal return
  or a panic carrying a message.
- `time.Unix(sec, 0).Format("2006-01-02 15:04:05")` renders the instant
  in the process's local time zone; the zone is modelled as an explicit
  offset (in seconds) parameter.  The Gregorian conversion follows the
  standard civil-from-days algorithm, which is what the Go time package
  computes for these layouts.
- `json.Unmarshal` is Go standard-library code, not repository code; it
  is modelled as an arbitrary decoder `String → Option LogData` handed
  to `processData` as a parameter (`none` = decode error).  The
  repository code discards the error and keeps the zero-valued record,
  which is what `decodedRecord` captures.
-/

namespace LogCollect

/-- A Go task `func()` observed by its execution outcome: it either
returns normally or panics with a message.  The `tag` distinguishes
distinct task values. -/
inductive Task where
  | ok (tag : Nat)
  | panics (tag : Nat) (msg : String)
deriving DecidableEq, Repr

/-- Executing a task: `none` = returned normally, `some msg` = panicked. -/
def runTask : Task → Option String
  | Task.ok _ => none
  | Task.panics _ msg => some msg

/-- The worker pool state: the buffered channel `taskQueue` (its queued
contents and its capacity) and whether `close` has been called on it.
The source: `taskQueue: make(chan func(), workers*100)`. -/
structure WorkerPool (α : Type) where
  taskQueue : List α
  capacity : Nat
  closed : Bool
deriving DecidableEq, Repr

/-- Outcome of one `Submit` call: `accepted` = the select sent into the
channel and `Submit` returned `true`; `rejected` = `Submit` returned
`false` (nil task or full queue); `panicked` = runtime fault
(send on closed channel) propagating to the caller. -/
inductive SubmitOutcome where
  | accepted
  | rejected
  | panicked
deriving DecidableEq, Repr

variable {α : Type}

/-- `NewWorkerPool(workers)` from the source: the channel capacity is
`workers*100`, the queue starts empty and open. -/
def NewWorkerPool (workers : Nat) : WorkerPool α :=
  { taskQueue := [], capacity := workers * 100, closed := false }

/-- `Submit` from the source: `nil` task is rejected; otherwise a
non-blocking `select` send.  In Go a send on a closed channel is ready
and panics when chosen, so the `default` branch is never taken on a
closed channel: `Submit` after `Close` panics. -/
def Submit (wp : WorkerPool α) (task : Option α) : SubmitOutcome × WorkerPool α :=
  match task with
  | none => (SubmitOutcome.rejected, wp)
  | some t =>
    if wp.closed then (SubmitOutcome.panicked, wp)
    else if wp.taskQueue.length < wp.capacity then
      (SubmitOutcome.accepted, { wp with taskQueue := wp.taskQueue ++ [t] })
    else (SubmitOutcome.rejected, wp)

/-- `Close` from the source: `close(wp.taskQueue)` (the `wg.Wait()` part
is captured by the drain semantics in `PoolStep` below). -/
def Close (wp : WorkerPool α) : WorkerPool α :=
  { wp with closed := true }

/-- Observable events of one worker goroutine: a task ran to completion,
or a task panicked and the recover logged the panic together with the
worker's id (`log.Printf("工作goroutine %d panic: %v", id, r)`). -/
inductive WorkerEvent where
  | ran (t : Task)
  | panicLogged (id : Nat) (msg : String)
deriving DecidableEq, Repr

/-- The body of `worker(id)` applied to the sequence of tasks the worker
pulls from the channel: each task runs inside a closure with a deferred
`recover`, so a panic is logged (with the worker id) and the loop goes
on to the next task. -/
def workerRun (id : Nat) : List Task → List WorkerEvent
  | [] => []
  | t :: rest =>
    (match runTask t with
     | none => WorkerEvent.ran t
     | some msg => WorkerEvent.panicLogged id msg) :: workerRun id rest

/-- Whole-pool small-step system used for the shutdown-drain claim.
`queue` is the channel buffer, `running` the multiset of in-flight
tasks (one per busy worker), `done` the tasks whose execution has
finished, `accepted` the ghost log of tasks `Submit` returned `true`
for.  `Close` returning corresponds to `closed = true`, `queue = []`,
`running = []`: `range` over the channel ends once the channel is
closed and drained, each worker finishes its current task before
`wg.Done`, and `wg.Wait` returns only after every worker exited. -/
structure PoolSys where
  capacity : Nat
  queue : List Task
  running : List Task
  done : List Task
  closed : Bool
  accepted : List Task
deriving DecidableEq, Repr

/-- Initial pool system: empty, open. -/
def initSys (cap : Nat) : PoolSys :=
  { capacity := cap, queue := [], running := [], done := [], closed := false, accepted := [] }

/-- One step of the pool system: an accepted `Submit` (only possible
while the channel is open and not full), a worker taking the head task
from the channel, a worker finishing an in-flight task (normally or via
the recovered panic path — either way the task's execution completes and
the worker returns to the loop), or `close(taskQueue)`. -/
inductive PoolStep : PoolSys → PoolSys → Prop where
  | submit (s : PoolSys) (t : Task)
      (hclosed : s.closed = false) (hroom : s.queue.length < s.capacity) :
      PoolStep s { s with queue := s.queue ++ [t], accepted := s.accepted ++ [t] }
  | take (s : PoolSys) (t : Task) (q : List Task) (hq : s.queue = t :: q) :
      PoolStep s { s with queue := q, running := s.running ++ [t] }
  | finish (s : PoolSys) (t : Task) (l₁ l₂ : List Task) (hr : s.running = l₁ ++ t :: l₂) :
      PoolStep s { s with running := l₁ ++ l₂, done := s.done ++ [t] }
  | close (s : PoolSys) :
      PoolStep s { s with closed := true }

/-- Reachability of a pool-system state from the fresh pool. -/
def SysReachable (cap : Nat) (s : PoolSys) : Prop :=
  Relation.ReflTransGen PoolStep (initSys cap) s

/-- Shutdown has returned: the channel is closed, its buffer is
drained, and no worker is still executing a task (so `wg.Wait` has
returned). -/
def ShutdownReturned (s : PoolSys) : Prop :=
  s.closed = true ∧ s.queue = [] ∧ s.running = []

/-- The wire record `LogData` of the source: `Date` is a Go `float64`
(modelled as an exact rational); all other fields are strings exactly as
in the Go struct. -/
structure LogData where
  Date : ℚ
  RemoteAddr : String
  RemoteUser : String
  Request : String
  Status : String
  BodyBytesSent : String
  HttpReferer : String
  HttpUserAgent : String
  RequestTime : String
  UpstreamResponseTime : String
  RequestLength : String
  BytesSent : String
  HttpXForwardedFor : String
  HttpXRealIp : String
  Scheme : String
  HttpHost : String
  ServerName : String
deriving DecidableEq, Repr

/-- The zero value of the Go struct `LogData` (what `LogData{}` gives,
and what remains after `json.Unmarshal` fails and its error is
discarded). -/
def LogData.zero : LogData :=
  { Date := 0, RemoteAddr := "", RemoteUser := "", Request := "", Status := ""
    BodyBytesSent := "", HttpReferer := "", HttpUserAgent := "", RequestTime := ""
    UpstreamResponseTime := "", RequestLength := "", BytesSent := ""
    HttpXForwardedFor := "", HttpXRealIp := "", Scheme := "", HttpHost := ""
    ServerName := "" }

/-- The storage row `NginxAccessLog` of the source; Go `int` fields are
`Int`, Go `float64` fields are `ℚ`. -/
structure NginxAccessLog where
  TimeIso8601 : String
  RemoteAddr : String
  RemoteUser : String
  Method : String
  RequestUri : String
  HttpVersion : String
  Status : Int
  BodyBytesSent : Int
  HttpReferer : String
  HttpUserAgent : String
  RequestTime : ℚ
  UpstreamResponseTime : ℚ
  RequestLength : Int
  BytesSent : Int
  HttpXForwardedFor : String
  HttpXRealIp : String
  Scheme : String
  HttpHost : String
  ServerName : String
deriving DecidableEq, Repr

/-- Equality on `Except` results is decidable componentwise (used to
evaluate conversion outcomes on concrete inputs). -/
instance {ε δ : Type} [DecidableEq ε] [DecidableEq δ] : DecidableEq (Except ε δ) :=
  fun a b =>
  match a, b with
  | Except.ok x, Except.ok y =>
    if h : x = y then isTrue (by rw [h]) else isFalse (fun hc => by cases hc; exact h rfl)
  | Except.error x, Except.error y =>
    if h : x = y then isTrue (by rw [h]) else isFalse (fun hc => by cases hc; exact h rfl)
  | Except.ok _, Except.error _ => isFalse (fun hc => by cases hc)
  | Except.error _, Except.ok _ => isFalse (fun hc => by cases hc)

/-- `strings.Split(s, sep)` on a one-character separator, on the
character list: splits around every occurrence of the separator; the
empty input gives one empty piece, like the Go function. -/
def splitOnChar (sep : Char) : List Char → List (List Char)
  | [] => [[]]
  | c :: cs =>
    if c = sep then [] :: splitOnChar sep cs
    else
      match splitOnChar sep cs with
      | [] => [[c]]
      | g :: gs => (c :: g) :: gs

/-- `strings.Split(s, " ")` (and, with `'.'`, the decimal-point split of
the float parser): Go split semantics on strings. -/
def goSplit (s : String) (sep : Char) : List String :=
  (splitOnChar sep s.toList).map String.mk

/-- The whitespace set of `strings.TrimSpace` restricted to ASCII
space, tab, newline and carriage return (the only whitespace the wire
format can carry). -/
def isSpaceChar (c : Char) : Bool :=
  c = ' ' || c = '\t' || c = '\n' || c = '\r'

/-- Drop leading whitespace characters. -/
def dropLeadingSpace : List Char → List Char
  | [] => []
  | c :: cs => if isSpaceChar c then dropLeadingSpace cs else c :: cs

/-- `strings.TrimSpace`: drop whitespace from both ends. -/
def goTrimSpace (s : String) : String :=
  String.mk ((dropLeadingSpace (dropLeadingSpace s.toList).reverse).reverse)

/-- Decimal digit accumulation for `strconv.Atoi`: fails on the first
non-digit character. -/
def parseNatCore : List Char → Nat → Option Nat
  | [], acc => some acc
  | c :: cs, acc =>
    if c.isDigit then parseNatCore cs (10 * acc + (c.toNat - 48)) else none

/-- `strconv.Atoi`: optional sign followed by at least one decimal
digit; any other input is a syntax error, in which case the Go call
returns value `0` with a non-nil error (the source discards the error,
which `Option.getD 0` captures at the call sites).  Range errors
(overflow of 64-bit int, unreachable for the wire fields) are not
modelled. -/
def goAtoi (s : String) : Option Int :=
  match s.toList with
  | [] => none
  | '+' :: cs => if cs = [] then none else (parseNatCore cs 0).map Int.ofNat
  | '-' :: cs => if cs = [] then none else (parseNatCore cs 0).map (fun n => -(n : Int))
  | cs => (parseNatCore cs 0).map Int.ofNat

/-- Digits-only check returning the accumulated value (empty list is
allowed and yields 0; callers rule out the empty-empty case). -/
def decDigits? (cs : List Char) : Option Nat :=
  if cs.all Char.isDigit then
    some (cs.foldl (fun a c => 10 * a + (c.toNat - 48)) 0)
  else none

/-- Unsigned part of `strconv.ParseFloat` for plain decimal notation
`ddd`, `ddd.ddd`, `.ddd` or `ddd.` (the forms the upstream emits);
exponents and hex floats are not modelled.  The result is the exact
decimal value as a rational. -/
def goParseFloatCore (cs : List Char) : Option ℚ :=
  match splitOnChar '.' cs with
  | [i] =>
    if i = [] then none
    else (decDigits? i).map (fun n => (n : ℚ))
  | [i, f] =>
    if i.isEmpty && f.isEmpty then none
    else
      match decDigits? i, decDigits? f with
      | some n, some m => some ((n : ℚ) + (m : ℚ) / (10 : ℚ) ^ f.length)
      | _, _ => none
  | _ => none

/-- `strconv.ParseFloat(s, 64)` restricted to plain decimal notation,
with the discarded-error behaviour (`0` on failure) applied by
`Option.getD 0` at the call sites. -/
def goParseFloat (s : String) : Option ℚ :=
  match s.toList with
  | [] => none
  | '+' :: cs => goParseFloatCore cs
  | '-' :: cs => (goParseFloatCore cs).map Neg.neg
  | cs => goParseFloatCore cs

/-- Go's `int64(f)` conversion of a `float64`: truncation toward zero
(the fractional part is discarded). -/
def float64ToInt64 (q : ℚ) : Int :=
  if 0 ≤ q then ⌊q⌋ else -⌊-q⌋

/-- Days since the Unix epoch to (year, month, day) in the proleptic
Gregorian calendar — the civil-from-days algorithm, which is the
calendar arithmetic behind Go's `time` formatting. -/
def civilFromDays (z0 : Int) : Int × Nat × Nat :=
  let z := z0 + 719468
  let era : Int := Int.fdiv z 146097
  let doe : Nat := (z - era * 146097).toNat
  let yoe : Nat := (doe - doe / 1460 + doe / 36524 - doe / 146096) / 365
  let y : Int := (yoe : Int) + era * 400
  let doy : Nat := doe - (365 * yoe + yoe / 4 - yoe / 100)
  let mp : Nat := (5 * doy + 2) / 153
  let d : Nat := doy - (153 * mp + 2) / 5 + 1
  let m : Nat := if mp < 10 then mp + 3 else mp - 9
  (if m ≤ 2 then y + 1 else y, m, d)

/-- Two-digit zero padding, as in the Go layout components `01 02 15 04 05`. -/
def pad2 (n : Nat) : String :=
  if n < 10 then "0" ++ toString n else toString n

/-- `time.Unix(sec, 0).Format("2006-01-02 15:04:05")` with the
process's local time zone modelled as the explicit offset `tzOffset`
(in seconds east of UTC). -/
def formatDateTime (tzOffset : Int) (epochSeconds : Int) : String :=
  let t := epochSeconds + tzOffset
  let days := Int.fdiv t 86400
  let sod := (t - days * 86400).toNat
  let ymd := civilFromDays days
  toString ymd.1 ++ "-" ++ pad2 ymd.2.1 ++ "-" ++ pad2 ymd.2.2 ++ " " ++
    pad2 (sod / 3600) ++ ":" ++ pad2 (sod % 3600 / 60) ++ ":" ++ pad2 (sod % 60)

/-- A Go runtime fault reachable in `processData`: indexing `url[i]`
past the end of the slice returned by `strings.Split`. -/
inductive GoPanic where
  | indexOutOfRange
deriving DecidableEq, Repr

/-- The conversion half of `processData` (source lines building
`nginxAccessLog` from `logData`): numeric fields go through
`strconv` with the error discarded (zero on failure), the request line
is `strings.Split(logData.Request, " ")` indexed at 0, 1, 2 — fewer
than three pieces is an index-out-of-range runtime fault, extra pieces
beyond the third are silently ignored. -/
def convertLogData (tz : Int) (logData : LogData) : Except GoPanic NginxAccessLog :=
  let t := float64ToInt64 logData.Date
  let status := (goAtoi logData.Status).getD 0
  let bodyBytesSent := (goAtoi logData.BodyBytesSent).getD 0
  let requestTime := (goParseFloat logData.RequestTime).getD 0
  let upstreamResponseTime := (goParseFloat logData.UpstreamResponseTime).getD 0
  let requestLength := (goAtoi logData.RequestLength).getD 0
  let bytesSent := (goAtoi logData.BytesSent).getD 0
  let url := goSplit logData.Request ' '
  match url with
  | method :: requestUri :: httpVersion :: _ =>
    Except.ok
      { TimeIso8601 := formatDateTime tz t
        RemoteAddr := logData.RemoteAddr
        RemoteUser := logData.RemoteUser
        Method := method
        RequestUri := requestUri
        HttpVersion := httpVersion
        Status := status
        BodyBytesSent := bodyBytesSent
        HttpReferer := logData.HttpReferer
        HttpUserAgent := logData.HttpUserAgent
        RequestTime := requestTime
        UpstreamResponseTime := upstreamResponseTime
        RequestLength := requestLength
        BytesSent := bytesSent
        HttpXForwardedFor := logData.HttpXForwardedFor
        HttpXRealIp := logData.HttpXRealIp
        Scheme := logData.Scheme
        HttpHost := logData.HttpHost
        ServerName := logData.ServerName }
  | _ => Except.error GoPanic.indexOutOfRange

/-- `logData := LogData{}; json.Unmarshal([]byte(payload), &logData)`
with the error discarded: a failed decode leaves the zero-valued
record. -/
def decodedRecord (jsonDecode : String → Option LogData) (payload : String) : LogData :=
  (jsonDecode payload).getD LogData.zero

/-- `processData` from the source: returns `none` when the early
validation returns (empty data, or empty after `strings.TrimSpace`),
otherwise the outcome of decoding and converting the payload.
`jsonDecode` stands for the standard-library `json.Unmarshal`
(`none` = decode error); `tz` is the process's local time zone offset. -/
def processData (tz : Int) (jsonDecode : String → Option LogData) (data : String) :
    Option (Except GoPanic NginxAccessLog) :=
  if data.toList.length = 0 then none
  else
    let trimmedData := goTrimSpace data
    if trimmedData.toList.length = 0 then none
    else
      let logData := decodedRecord jsonDecode trimmedData
      some (convertLogData tz logData)

/-- The sink writes performed by one `processData` call: the
`DB.Create(&nginxAccessLog)` call is commented out in the source, so no
write is ever issued, whatever the payload. -/
def processDataSinkWrites (_tz : Int) (_jsonDecode : String → Option LogData)
    (_data : String) : List NginxAccessLog :=
  []

/-- What the receive loop does with one successfully read datagram. -/
inductive ReceiverAction where
  | submittedTask (payload : String)
  | droppedOverload (payload : String)
  | crashed
deriving DecidableEq, Repr

/-- One iteration of the receive loop in `startUDPServer` after a
successful `ReadFromUDP`: the receiver always calls
`Submit(func(){ processData(data, remoteAddr) })` — there is no
emptiness or trim check before the submission; on rejection it logs the
drop and continues.  A task is identified by the payload it captured. -/
def receiveIteration (wp : WorkerPool String) (data : String) :
    ReceiverAction × WorkerPool String :=
  match Submit wp (some data) with
  | (SubmitOutcome.accepted, wp') => (ReceiverAction.submittedTask data, wp')
  | (SubmitOutcome.rejected, wp') => (ReceiverAction.droppedOverload data, wp')
  | (SubmitOutcome.panicked, wp') => (ReceiverAction.crashed, wp')

/-- The sample wire payload (the source's `LogData` comment; the §6
sample with the end-to-end request URI).  Braces are written with
escapes. -/
def samplePayload : String :=
  "\x7b\"date\":1751372240.0,\"remote_addr\":\"172.28.0.1\",\"remote_user\":\"-\",\"request\":\"GET /hyperfApi/demo/test HTTP/1.1\",\"status\":\"200\",\"body_bytes_sent\":\"154\",\"http_referer\":\"-\",\"http_user_agent\":\"PostmanRuntime-ApipostRuntime/1.1.0\",\"request_time\":\"0.071\",\"upstream_response_time\":\"0.071\",\"request_length\":\"201\",\"bytes_sent\":\"553\",\"http_x_forwarded_for\":\"-\",\"http_x_real_ip\":\"-\",\"scheme\":\"http\",\"http_host\":\"localhost\",\"server_name\":\"localhost\"\x7d"

/-- The wire record the sample payload decodes to. -/
def sampleLogData : LogData :=
  { Date := 1751372240
    RemoteAddr := "172.28.0.1"
    RemoteUser := "-"
    Request := "GET /hyperfApi/demo/test HTTP/1.1"
    Status := "200"
    BodyBytesSent := "154"
    HttpReferer := "-"
    HttpUserAgent := "PostmanRuntime-ApipostRuntime/1.1.0"
    RequestTime := "0.071"
    UpstreamResponseTime := "0.071"
    RequestLength := "201"
    BytesSent := "553"
    HttpXForwardedFor := "-"
    HttpXRealIp := "-"
    Scheme := "http"
    HttpHost := "localhost"
    ServerName := "localhost" }

/-- Stand-in for the standard-library JSON decoder on the sample
payload: decodes exactly the sample text to the sample record. -/
def sampleDecoder : String → Option LogData :=
  fun s => if s = samplePayload then some sampleLogData else none

/-- The storage row `processData` builds from the sample record, with
the timestamp rendered at offset 0 (UTC). -/
def sampleRow : NginxAccessLog :=
  { TimeIso8601 := "2025-07-01 12:17:20"
    RemoteAddr := "172.28.0.1"
    RemoteUser := "-"
    Method := "GET"
    RequestUri := "/hyperfApi/demo/test"
    HttpVersion := "HTTP/1.1"
    Status := 200
    BodyBytesSent := 154
    HttpReferer := "-"
    HttpUserAgent := "PostmanRuntime-ApipostRuntime/1.1.0"
    RequestTime := 71/1000
    UpstreamResponseTime := 71/1000
    RequestLength := 201
    BytesSent := 553
    HttpXForwardedFor := "-"
    HttpXRealIp := "-"
    Scheme := "http"
    HttpHost := "localhost"
    ServerName := "localhost" }

/-- Accounting invariant of the pool system: every accepted task is
queued, in flight, or done (as multisets — no task is duplicated or
lost). -/
theorem sysInvariant (cap : Nat) (s : PoolSys) (h : SysReachable cap s) :
    (s.queue : Multiset Task) + (s.running : Multiset Task) + (s.done : Multiset Task)
      = (s.accepted : Multiset Task) := by
  induction h with
  | refl => simp [initSys]
  | tail _ hstep ih =>
    cases hstep with
    | submit t hclosed hroom =>
      simp only [← Multiset.coe_add]
      simp only [← Multiset.coe_add] at ih
      rw [← ih]
      abel
    | take t q hq =>
      rw [hq] at ih
      simp only [← Multiset.coe_add, ← Multiset.cons_coe, ← Multiset.singleton_add] at ih ⊢
      rw [← ih]
      abel
    | finish t l₁ l₂ hr =>
      rw [hr] at ih
      simp only [← Multiset.coe_add, ← Multiset.cons_coe, ← Multiset.singleton_add] at ih ⊢
      rw [← ih]
      abel
    | close =>
      exact ih

/-- C1: the claim says a request line that does not split into exactly
three tokens makes the conversion fail with an explicit propagated
error and never with an index-out-of-range fault.  The code violates
this: on the two-token request line `GET /x` the conversion hits the
index-out-of-range runtime fault at `url[2]`, and on more than three
tokens it silently succeeds (no failure at all), using only the first
three pieces. -/
theorem c1_request_line_fault :
    convertLogData 0 { LogData.zero with Request := "GET /x" } =
      Except.error GoPanic.indexOutOfRange ∧
    (∃ row, convertLogData 0 { LogData.zero with Request := "GET /x HTTP/1.1 extra" } =
      Except.ok row ∧ row.Method = "GET" ∧ row.RequestUri = "/x" ∧
      row.HttpVersion = "HTTP/1.1") := by
  refine ⟨by decide, ⟨
    { TimeIso8601 := "1970-01-01 00:00:00", RemoteAddr := "", RemoteUser := ""
      Method := "GET", RequestUri := "/x", HttpVersion := "HTTP/1.1"
      Status := 0, BodyBytesSent := 0, HttpReferer := "", HttpUserAgent := ""
      RequestTime := 0, UpstreamResponseTime := 0, RequestLength := 0, BytesSent := 0
      HttpXForwardedFor := "", HttpXRealIp := "", Scheme := "", HttpHost := ""
      ServerName := "" }, by decide, rfl, rfl, rfl⟩⟩

/-- C2 counterexample: on a pool whose channel has been closed,
`Submit` with a non-nil task neither accepts nor rejects — the send on
the closed channel panics — so the claim's unrestricted
"otherwise it enqueues the task and returns acceptance" is false. -/
theorem c2_counterexample :
    (Submit (⟨[], 100, true⟩ : WorkerPool Task) (some (Task.ok 0))).1 =
      SubmitOutcome.panicked ∧
    SubmitOutcome.panicked ≠ SubmitOutcome.accepted ∧
    SubmitOutcome.panicked ≠ SubmitOutcome.rejected := by
  refine ⟨rfl, by decide, by decide⟩

/-- C2 (amended to pools on which `Close` has not yet been called):
`Submit` returns the rejection signal on a nil task, returns the
rejection signal when the queue is full, and otherwise enqueues the
task and returns acceptance.  Submission is a total function of the
pool state — the non-blocking contract. -/
theorem c2_submit_amended (wp : WorkerPool Task) (task : Option Task)
    (hopen : wp.closed = false) :
    (task = none → Submit wp task = (SubmitOutcome.rejected, wp)) ∧
    (∀ t, task = some t → wp.capacity ≤ wp.taskQueue.length →
      Submit wp task = (SubmitOutcome.rejected, wp)) ∧
    (∀ t, task = some t → wp.taskQueue.length < wp.capacity →
      Submit wp task =
        (SubmitOutcome.accepted, { wp with taskQueue := wp.taskQueue ++ [t] })) := by
  refine ⟨fun h => by simp [h, Submit], fun t h hfull => ?_, fun t h hroom => ?_⟩
  · subst h
    simp [Submit, hopen, Nat.not_lt.mpr hfull]
  · subst h
    simp [Submit, hopen, hroom]

/-- Witness for the amended C2 at concrete pools: nil task rejected,
full queue rejected, and an accepted enqueue. -/
theorem c2_submit_amended_witness :
    Submit (⟨[], 200, false⟩ : WorkerPool Task) none =
      (SubmitOutcome.rejected, ⟨[], 200, false⟩) ∧
    Submit (⟨[Task.ok 1], 1, false⟩ : WorkerPool Task) (some (Task.ok 2)) =
      (SubmitOutcome.rejected, ⟨[Task.ok 1], 1, false⟩) ∧
    Submit (⟨[], 200, false⟩ : WorkerPool Task) (some (Task.ok 3)) =
      (SubmitOutcome.accepted, ⟨[Task.ok 3], 200, false⟩) :=
  ⟨(c2_submit_amended _ none rfl).1 rfl,
   (c2_submit_amended _ _ rfl).2.1 _ rfl (by decide),
   (c2_submit_amended _ _ rfl).2.2 _ rfl (by decide)⟩

/-- C10: after `Close` has been called on the pool, every `Submit` with
a non-nil task panics (send on a closed channel) in the caller, rather
than returning the rejection signal. -/
theorem c10_submit_after_close (wp : WorkerPool α) (t : α) :
    (Submit (Close wp) (some t)).1 = SubmitOutcome.panicked ∧
    (Submit (Close wp) (some t)).1 ≠ SubmitOutcome.rejected := by
  constructor <;> simp [Submit, Close]

/-- C4: a task that panics is caught at the worker boundary and logged
with the worker's id, and the worker goes on to run every subsequent
task exactly as it would have without the fault; one event is produced
per task, so no fault terminates the worker or affects other tasks. -/
theorem c4_fault_isolation :
    (∀ (id : Nat) (pre post : List Task) (tag : Nat) (msg : String),
      workerRun id (pre ++ Task.panics tag msg :: post) =
        workerRun id pre ++ WorkerEvent.panicLogged id msg :: workerRun id post) ∧
    (∀ (id : Nat) (tasks : List Task), (workerRun id tasks).length = tasks.length) := by
  constructor
  · intro id pre post tag msg
    induction pre with
    | nil => simp [workerRun, runTask]
    | cons a l ih => simp [workerRun, ih]
  · intro id tasks
    induction tasks with
    | nil => rfl
    | cons a l ih => simp [workerRun, ih]

/-- C3: in every reachable pool-system state in which shutdown has
returned (channel closed, buffer drained, no in-flight task), the
multiset of completed tasks equals the multiset of tasks accepted by
`Submit` — shutdown waits for all accepted tasks and none is lost.
The step relation allows arbitrary interleavings of submissions, worker
dequeues and completions, covering concurrent producers. -/
theorem c3_drain_on_shutdown (cap : Nat) (s : PoolSys) (h : SysReachable cap s)
    (hret : ShutdownReturned s) :
    (s.done : Multiset Task) = (s.accepted : Multiset Task) := by
  obtain ⟨-, hq, hr⟩ := hret
  have inv := sysInvariant cap s h
  rw [hq, hr] at inv
  simpa using inv

/-- Witness for C3: a concrete run — submit one task, a worker takes
and finishes it, the pool is closed — reaching a shutdown-returned
state where done equals accepted. -/
theorem c3_drain_on_shutdown_witness :
    ((⟨2, [], [], [Task.ok 0], true, [Task.ok 0]⟩ : PoolSys).done : Multiset Task) =
      ((⟨2, [], [], [Task.ok 0], true, [Task.ok 0]⟩ : PoolSys).accepted : Multiset Task) := by
  refine c3_drain_on_shutdown 2 _ ?_ ⟨rfl, rfl, rfl⟩
  have s1 : PoolStep (initSys 2) ⟨2, [Task.ok 0], [], [], false, [Task.ok 0]⟩ :=
    PoolStep.submit (initSys 2) (Task.ok 0) rfl (by decide)
  have s2 : PoolStep ⟨2, [Task.ok 0], [], [], false, [Task.ok 0]⟩
      ⟨2, [], [Task.ok 0], [], false, [Task.ok 0]⟩ :=
    PoolStep.take _ (Task.ok 0) [] rfl
  have s3 : PoolStep ⟨2, [], [Task.ok 0], [], false, [Task.ok 0]⟩
      ⟨2, [], [], [Task.ok 0], false, [Task.ok 0]⟩ :=
    PoolStep.finish _ (Task.ok 0) [] [] rfl
  have s4 : PoolStep ⟨2, [], [], [Task.ok 0], false, [Task.ok 0]⟩
      ⟨2, [], [], [Task.ok 0], true, [Task.ok 0]⟩ :=
    PoolStep.close _
  exact Relation.ReflTransGen.tail
    (Relation.ReflTransGen.tail
      (Relation.ReflTransGen.tail
        (Relation.ReflTransGen.tail Relation.ReflTransGen.refl s1) s2) s3) s4

/-- C6 counterexample: a whitespace-only datagram does cause a task
submission — the receive loop calls `Submit` for every datagram it
reads, with no emptiness or trim check on the receive path, and on an
open, non-full pool the task is enqueued. -/
theorem c6_counterexample :
    (receiveIteration (⟨[], 400, false⟩ : WorkerPool String) " ").1 =
      ReceiverAction.submittedTask " " ∧
    ((receiveIteration (⟨[], 400, false⟩ : WorkerPool String) " ").2).taskQueue =
      [" "] ∧
    goTrimSpace " " = "" := by
  refine ⟨rfl, rfl, rfl⟩

/-- C6 (amended): the receiver submits a task for every successfully
read datagram, including empty and whitespace-only ones (on an open
pool with queue room, the task is enqueued); the non-empty and trim
checks live inside the task body, which returns without decoding or
converting anything when the payload is empty or whitespace-only. -/
theorem c6_receiver_amended :
    (∀ (wp : WorkerPool String) (data : String), wp.closed = false →
      wp.taskQueue.length < wp.capacity →
      receiveIteration wp data =
        (ReceiverAction.submittedTask data,
          { wp with taskQueue := wp.taskQueue ++ [data] })) ∧
    (∀ (tz : Int) (dec : String → Option LogData) (data : String),
      goTrimSpace data = "" → processData tz dec data = none) := by
  constructor
  · intro wp data hopen hroom
    simp [receiveIteration, Submit, hopen, hroom]
  · intro tz dec data htrim
    have h0 : ("" : String).toList.length = 0 := rfl
    simp [processData, htrim, h0]

/-- Witness for the amended C6: the whitespace-only datagram is
enqueued, and the task body ignores it. -/
theorem c6_receiver_amended_witness :
    receiveIteration (⟨[], 400, false⟩ : WorkerPool String) " " =
      (ReceiverAction.submittedTask " ", ⟨[" "], 400, false⟩) ∧
    processData 0 (fun _ => none) " " = none :=
  ⟨c6_receiver_amended.1 _ " " rfl (by decide),
   c6_receiver_amended.2 0 _ " " rfl⟩

/-- C5 counterexample: on a payload the decoder rejects, the record is
indeed left all-zero, but conversion does not continue with the
remaining fields — the zero-valued request line has no three pieces
and the conversion hits the index-out-of-range fault, producing no
row. -/
theorem c5_counterexample :
    processData 0 (fun _ => none) "notjson" =
      some (Except.error GoPanic.indexOutOfRange) ∧
    decodedRecord (fun _ => none) "notjson" = LogData.zero := by
  refine ⟨by decide, rfl⟩

/-- C5 (amended): a decode failure leaves the record with all fields at
their zero value, and a text-encoded numeric field that fails to parse
(such as `status = "abc"`) yields the zero value for that field while
conversion continues with the remaining fields — provided the request
line still has three pieces; the all-zero record of a decode failure,
however, subsequently faults at the request-line decomposition, so its
conversion produces no row. -/
theorem c5_zero_fill_amended :
    (∀ (dec : String → Option LogData) (payload : String),
      dec payload = none → decodedRecord dec payload = LogData.zero) ∧
    goAtoi "abc" = none ∧
    (∀ (tz : Int) (r : LogData) (m u v : String) (rest : List String),
      goSplit r.Request ' ' = m :: u :: v :: rest →
      ∃ row, convertLogData tz r = Except.ok row ∧
        (goAtoi r.Status = none → row.Status = 0) ∧
        (goAtoi r.BodyBytesSent = none → row.BodyBytesSent = 0) ∧
        (goParseFloat r.RequestTime = none → row.RequestTime = 0) ∧
        (goParseFloat r.UpstreamResponseTime = none → row.UpstreamResponseTime = 0) ∧
        (goAtoi r.RequestLength = none → row.RequestLength = 0) ∧
        (goAtoi r.BytesSent = none → row.BytesSent = 0)) ∧
    (∀ tz : Int, convertLogData tz LogData.zero = Except.error GoPanic.indexOutOfRange) := by
  refine ⟨fun dec p h => by simp [decodedRecord, h], by decide, ?_, fun tz => rfl⟩
  intro tz r m u v rest hsplit
  simp only [convertLogData, hsplit]
  refine ⟨_, rfl, fun h => ?_, fun h => ?_, fun h => ?_, fun h => ?_, fun h => ?_,
    fun h => ?_⟩ <;> simp [h]

/-- Witness for the amended C5 at concrete inputs: a rejected payload
gives the zero record; a record whose six numeric fields are all
unparsable (`"abc"`) converts to a row with all six at zero; the zero
record's conversion faults. -/
theorem c5_zero_fill_amended_witness :
    decodedRecord (fun _ => none) "bad" = LogData.zero ∧
    (∃ row, convertLogData 0
        { LogData.zero with
            Request := "GET /x HTTP/1.1"
            Status := "abc"
            BodyBytesSent := "abc"
            RequestTime := "abc"
            UpstreamResponseTime := "abc"
            RequestLength := "abc"
            BytesSent := "abc" } =
        Except.ok row ∧ row.Status = 0 ∧ row.BodyBytesSent = 0 ∧
        row.RequestTime = 0 ∧ row.UpstreamResponseTime = 0 ∧
        row.RequestLength = 0 ∧ row.BytesSent = 0) ∧
    convertLogData 0 LogData.zero = Except.error GoPanic.indexOutOfRange := by
  refine ⟨c5_zero_fill_amended.1 _ _ rfl, ?_, c5_zero_fill_amended.2.2.2 0⟩
  obtain ⟨row, hok, h1, h2, h3, h4, h5, h6⟩ :=
    c5_zero_fill_amended.2.2.1 0
      { LogData.zero with
          Request := "GET /x HTTP/1.1"
          Status := "abc"
          BodyBytesSent := "abc"
          RequestTime := "abc"
          UpstreamResponseTime := "abc"
          RequestLength := "abc"
          BytesSent := "abc" }
      "GET" "/x" "HTTP/1.1" [] rfl
  exact ⟨row, hok, h1 rfl, h2 rfl, h3 rfl, h4 rfl, h5 rfl, h6 rfl⟩

/-- C7: for a wire record whose request line splits into exactly three
pieces and whose numeric fields all parse, the conversion succeeds and
reproduces every field: text fields verbatim, numeric fields at their
parsed values, and the two documented transformations (timestamp
formatting, request-line decomposition into method, URI and version). -/
theorem c7_round_trip (tz : Int) (r : LogData) (m u v : String)
    (st bbs rl bs : Int) (rt urt : ℚ)
    (hsplit : goSplit r.Request ' ' = [m, u, v])
    (hst : goAtoi r.Status = some st)
    (hbbs : goAtoi r.BodyBytesSent = some bbs)
    (hrt : goParseFloat r.RequestTime = some rt)
    (hurt : goParseFloat r.UpstreamResponseTime = some urt)
    (hrl : goAtoi r.RequestLength = some rl)
    (hbs : goAtoi r.BytesSent = some bs) :
    convertLogData tz r = Except.ok
      { TimeIso8601 := formatDateTime tz (float64ToInt64 r.Date)
        RemoteAddr := r.RemoteAddr
        RemoteUser := r.RemoteUser
        Method := m
        RequestUri := u
        HttpVersion := v
        Status := st
        BodyBytesSent := bbs
        HttpReferer := r.HttpReferer
        HttpUserAgent := r.HttpUserAgent
        RequestTime := rt
        UpstreamResponseTime := urt
        RequestLength := rl
        BytesSent := bs
        HttpXForwardedFor := r.HttpXForwardedFor
        HttpXRealIp := r.HttpXRealIp
        Scheme := r.Scheme
        HttpHost := r.HttpHost
        ServerName := r.ServerName } := by
  simp only [convertLogData, hsplit, hst, hbbs, hrt, hurt, hrl, hbs, Option.getD_some]

/-- Witness for C7: the sample wire record converts to the sample row. -/
theorem c7_round_trip_witness :
    convertLogData 0 sampleLogData = Except.ok sampleRow := by
  have h := c7_round_trip 0 sampleLogData "GET" "/hyperfApi/demo/test" "HTTP/1.1"
    200 154 201 553 (71/1000) (71/1000) rfl rfl rfl
    (by with_unfolding_all rfl) (by with_unfolding_all rfl) rfl rfl
  exact h

/-- C8: the conversion renders the timestamp field as the wire
timestamp truncated to integer seconds (fractional part discarded) and
formatted `YYYY-MM-DD HH:MM:SS` at the process's zone offset; the
rendering is checked at the sample instant for UTC and for a +08:00
zone. -/
theorem c8_timestamp :
    (∀ (tz : Int) (r : LogData) (row : NginxAccessLog),
      convertLogData tz r = Except.ok row →
      row.TimeIso8601 = formatDateTime tz (float64ToInt64 r.Date)) ∧
    (∀ (n : Nat) (f : ℚ), 0 ≤ f → f < 1 →
      float64ToInt64 ((n : ℚ) + f) = (n : Int)) ∧
    formatDateTime 0 1751372240 = "2025-07-01 12:17:20" ∧
    formatDateTime 28800 1751372240 = "2025-07-01 20:17:20" := by
  refine ⟨?_, ?_, by decide, by decide⟩
  · intro tz r row h
    simp only [convertLogData] at h
    rcases hsp : goSplit r.Request ' ' with _ | ⟨a, _ | ⟨b, _ | ⟨c, rest⟩⟩⟩ <;>
        rw [hsp] at h
    · exact absurd h (by simp)
    · exact absurd h (by simp)
    · exact absurd h (by simp)
    · injection h with h'
      subst h'
      rfl
  · intro n f hf0 hf1
    have hq : (0 : ℚ) ≤ (n : ℚ) + f := by positivity
    rw [float64ToInt64, if_pos hq]
    have hcast : ((n : ℚ) + f) = (((n : Int) : ℚ)) + f := by push_cast; ring
    rw [hcast, Int.floor_int_add, Int.floor_eq_zero_iff.mpr ⟨hf0, hf1⟩, add_zero]

/-- Witness for C8: the sample row's timestamp field is the formatted
truncated timestamp, and truncation discards the fractional part of
`1751372240.7`. -/
theorem c8_timestamp_witness :
    sampleRow.TimeIso8601 = formatDateTime 0 (float64ToInt64 sampleLogData.Date) ∧
    float64ToInt64 (((1751372240 : ℕ) : ℚ) + 7 / 10) = ((1751372240 : ℕ) : ℤ) :=
  ⟨c8_timestamp.1 0 sampleLogData sampleRow (by with_unfolding_all rfl),
   c8_timestamp.2.1 1751372240 (7 / 10) (by norm_num) (by norm_num)⟩

/-- C9 counterexample: processing the sample payload produces zero
`Sink.Write` calls, not exactly one — the `DB.Create` call is commented
out in the source. -/
theorem c9_counterexample :
    (processDataSinkWrites 0 sampleDecoder samplePayload).length = 0 ∧
    ¬ (processDataSinkWrites 0 sampleDecoder samplePayload).length = 1 := by
  refine ⟨rfl, by decide⟩

set_option maxRecDepth 40000 in
/-- C9 (amended): processing the sample payload constructs exactly one
storage row, with the field values of the end-to-end scenario
(`Method = GET`, the sample URI, `HTTP/1.1`, status 200, 154 body
bytes, request time 0.071); but no sink write is issued because the
write call is disabled in the code. -/
theorem c9_end_to_end_amended :
    processData 0 sampleDecoder samplePayload = some (Except.ok sampleRow) ∧
    sampleRow.Method = "GET" ∧
    sampleRow.RequestUri = "/hyperfApi/demo/test" ∧
    sampleRow.HttpVersion = "HTTP/1.1" ∧
    sampleRow.Status = 200 ∧
    sampleRow.BodyBytesSent = 154 ∧
    sampleRow.RequestTime = 71 / 1000 ∧
    processDataSinkWrites 0 sampleDecoder samplePayload = [] := by
  refine ⟨by with_unfolding_all rfl, rfl, rfl, rfl, rfl, rfl, rfl, rfl⟩

end LogCollect
